import Mathlib

/-!
Verification of the chart annotation and trade-geometry engine of the
tradergeniev3 dashboard, shallowly embedded in Lean 4.

Numbers in the source are JavaScript floats; where a value flows through
ordinary total arithmetic we embed it as a rational number (claims speak
of exact values before display formatting).  Where a value may be
`undefined` or `NaN` (fields of a market-data snapshot and arithmetic on
them) we embed it as `Option ℚ`, with `none` standing for a missing or
non-finite JavaScript value; the arithmetic helpers below propagate
`none` the way JavaScript propagates `NaN`.
-/

namespace TraderGenie

/-- JavaScript subtraction on possibly-missing numbers: any operand that is
`undefined`/`NaN` makes the result `NaN`. -/
def jsub : Option ℚ → Option ℚ → Option ℚ
  | some a, some b => some (a - b)
  | _, _ => none

/-- JavaScript addition on possibly-missing numbers. -/
def jadd : Option ℚ → Option ℚ → Option ℚ
  | some a, some b => some (a + b)
  | _, _ => none

/-- JavaScript multiplication on possibly-missing numbers. -/
def jmul : Option ℚ → Option ℚ → Option ℚ
  | some a, some b => some (a * b)
  | _, _ => none

/-- JavaScript division on possibly-missing numbers; division by zero
produces a non-finite value (`±Infinity` or `NaN`), embedded as `none`. -/
def jdiv : Option ℚ → Option ℚ → Option ℚ
  | some a, some b => if b = 0 then none else some (a / b)
  | _, _ => none

/-- `Math.max` with `NaN` propagation: `Math.max(NaN, x) = NaN`. -/
def jsMax : Option ℚ → Option ℚ → Option ℚ
  | some a, some b => some (max a b)
  | _, _ => none

/-- `Math.min` with `NaN` propagation. -/
def jsMin : Option ℚ → Option ℚ → Option ℚ
  | some a, some b => some (min a b)
  | _, _ => none

/-- `Math.abs` with `NaN` propagation. -/
def jsAbs : Option ℚ → Option ℚ
  | some a => some |a|
  | none => none

/-- JavaScript comparison `x > c` against a present number: `NaN > c` is
`false`. -/
def jsGtNum (x : Option ℚ) (c : ℚ) : Bool :=
  match x with
  | some v => decide (c < v)
  | none => false

/-- JavaScript falsiness of a numeric value: `undefined`, `NaN` and `0` are
all falsy. -/
def jsFalsy (x : Option ℚ) : Bool :=
  match x with
  | some v => decide (v = 0)
  | none => true

/-! ### TradeCalculator (src/frontend/src/components/TradeCalculator.js)

The `calculations` memo, lines 33-85.  The component state fields are
numeric form inputs; `parseFloat(x) || 0` coerces an unparsable or zero
input to `0` (and `parseFloat(leverage) || 1` coerces to `1`), so on
already-numeric inputs only the leverage coercion is observable.  The
memo returns `null` (embedded as `none`) when `!entry || !sl`. -/

inductive TradeSide where
  | long : TradeSide
  | short : TradeSide
deriving DecidableEq

/-- The numeric results of the `calculations` memo, before `toFixed`
display formatting. -/
structure TradeMetrics where
  slPercent : ℚ
  tpPercent : ℚ
  rrRatio : ℚ
  riskAmount : ℚ
  positionSize : ℚ
  positionSizeWithLeverage : ℚ
  potentialLoss : ℚ
  potentialProfit : ℚ
  quantity : ℚ
  liquidationPrice : ℚ
deriving DecidableEq

/-- The `calculations` memo of `TradeCalculator.js` (lines 33-85). -/
def calculations (entryPrice stopLoss takeProfit accountSize riskPercent leverage : ℚ)
    (tradeType : TradeSide) : Option TradeMetrics :=
  let entry := entryPrice
  let sl := stopLoss
  let tp := takeProfit
  let account := accountSize
  let risk := riskPercent
  let lev := if leverage = 0 then 1 else leverage
  if entry = 0 ∨ sl = 0 then
    none
  else
    let slDistance := |entry - sl|
    let tpDistance := |tp - entry|
    let slPercent := slDistance / entry * 100
    let tpPercent := tpDistance / entry * 100
    let rrRatio := if 0 < slDistance then tpDistance / slDistance else 0
    let riskAmount := account * risk / 100
    let positionSize := if 0 < slPercent then riskAmount / (slPercent / 100) else 0
    let positionSizeWithLeverage := positionSize / lev
    let potentialLoss := riskAmount
    let potentialProfit := riskAmount * rrRatio
    let quantity := if 0 < entry then positionSizeWithLeverage / entry else 0
    let maintenanceMargin : ℚ := 1 / 2
    let liquidationDistance := 100 / lev - maintenanceMargin
    let liquidationPrice :=
      match tradeType with
      | .long => entry * (1 - liquidationDistance / 100)
      | .short => entry * (1 + liquidationDistance / 100)
    some {
      slPercent := slPercent
      tpPercent := tpPercent
      rrRatio := rrRatio
      riskAmount := riskAmount
      positionSize := positionSize
      positionSizeWithLeverage := positionSizeWithLeverage
      potentialLoss := potentialLoss
      potentialProfit := potentialProfit
      quantity := quantity
      liquidationPrice := liquidationPrice }

/-- The liquidation-price formula as the spec words it (§4.5): with
`maintenanceMarginPct = 0.5`, `liqDistancePct = (100/leverage) - 0.5`;
Long: `entry * (1 - liqDistancePct/100)`; Short:
`entry * (1 + liqDistancePct/100)`. -/
def liquidationPriceSpec (entry leverage : ℚ) (side : TradeSide) : ℚ :=
  let liqDistancePct := 100 / leverage - 1 / 2
  match side with
  | .long => entry * (1 - liqDistancePct / 100)
  | .short => entry * (1 + liqDistancePct / 100)

/-! ### ChartOverlay (src/frontend/src/components/ChartOverlay.js)

`SMCOverlay` destructures a `priceData` snapshot whose fields may each be
missing, and defines a local `priceToY` closing over `high24h`, `low24h`
and `chartHeight` (lines 138-146). -/

/-- `priceToY` of `SMCOverlay` (ChartOverlay.js lines 139-146):
`priceRange = high24h - low24h`; if `priceRange === 0` return
`chartHeight / 2`, else `offset + percent * paddedHeight` with
`percent = (high24h - price) / priceRange`,
`paddedHeight = chartHeight * 0.8`, `offset = chartHeight * 0.1`. -/
def priceToY (high24h low24h : Option ℚ) (chartHeight : ℚ) (price : Option ℚ) : Option ℚ :=
  let priceRange := jsub high24h low24h
  if priceRange = some 0 then some (chartHeight / 2)
  else
    let percent := jdiv (jsub high24h price) priceRange
    let paddedHeight := chartHeight * (8 / 10)
    let offset := chartHeight * (1 / 10)
    jadd (some offset) (jmul percent (some paddedHeight))

/-- A risk/reward drawing box (`newBox` shape in `handleClick`,
ChartOverlay.js lines 405-412): id from `Date.now()`, pixel geometry as
rationals. -/
structure Box where
  id : ℤ
  x : ℚ
  width : ℚ
  entryY : ℚ
  tpY : ℚ
  slY : ℚ
deriving DecidableEq

/-- The displayed risk/reward ratio of a `DrawingBox` (ChartOverlay.js
lines 12-20) before `toFixed(1)` formatting: with `tpY = min(box.tpY,
box.slY)`, `slY = max(box.tpY, box.slY)`, `tpDistance = |entryY - tpY|`,
`slDistance = |slY - entryY|`, the ratio is `tpDistance / slDistance`
when `slDistance > 0` and the fallback `0` otherwise. -/
def rr (box : Box) : ℚ :=
  let tpY := min box.tpY box.slY
  let slY := max box.tpY box.slY
  let tpDistance := |box.entryY - tpY|
  let slDistance := |slY - box.entryY|
  if 0 < slDistance then tpDistance / slDistance else 0

/-- The `'move'` branch of `handleMouseMove` (ChartOverlay.js lines
37-41): all three edges translate by `deltaY`, the entry edge clamped to
`[20, chartHeight - 20]`; `initialBox` is the snapshot captured at drag
start and `box` the current box. -/
def moveDrag (initialBox box : Box) (chartHeight deltaY : ℚ) : Box :=
  { box with
    entryY := max 20 (min (initialBox.entryY + deltaY) (chartHeight - 20))
    tpY := initialBox.tpY + deltaY
    slY := initialBox.slY + deltaY }

/-- The `'top'` branch of `handleMouseMove` (ChartOverlay.js lines
42-44): only `tpY` moves, as `max(0, min(initialBox.tpY + deltaY,
box.entryY - 10))`. -/
def resizeTop (initialBox box : Box) (deltaY : ℚ) : Box :=
  { box with tpY := max 0 (min (initialBox.tpY + deltaY) (box.entryY - 10)) }

/-- The `'bottom'` branch of `handleMouseMove` (ChartOverlay.js lines
45-47): only `slY` moves, as `max(box.entryY + 10, min(initialBox.slY +
deltaY, chartHeight))`. -/
def resizeBottom (initialBox box : Box) (chartHeight deltaY : ℚ) : Box :=
  { box with slY := max (box.entryY + 10) (min (initialBox.slY + deltaY) chartHeight) }

/-- The `clickedOnBox` test of `handleClick` (ChartOverlay.js lines
393-397): some box whose vertical span `[min(tpY, slY), max(tpY, slY)]`
and horizontal span `[x, x + width]` contain the click. -/
def clickedOnBox (boxes : List Box) (clickX clickY : ℚ) : Bool :=
  boxes.any fun box =>
    let boxTop := min box.tpY box.slY
    let boxBottom := max box.tpY box.slY
    decide (boxTop ≤ clickY) && decide (clickY ≤ boxBottom) &&
      decide (box.x ≤ clickX) && decide (clickX ≤ box.x + box.width)

/-- `handleClick` of `ChartOverlay` (ChartOverlay.js lines 384-416),
restricted to its effect on the box collection: outside drawing mode it
is a no-op; a click on an existing box's area is a no-op; otherwise a new
box with default offsets (TP 50px above, SL 30px below) is appended.
`newId` stands for `Date.now()`. -/
def handleClick (isDrawingMode : Bool) (boxes : List Box) (clickX clickY : ℚ)
    (newId : ℤ) : List Box :=
  if !isDrawingMode then boxes
  else if clickedOnBox boxes clickX clickY then boxes
  else
    boxes ++ [{ id := newId
                x := clickX - 60
                width := 120
                entryY := clickY
                tpY := clickY - 50
                slY := clickY + 30 }]

/-- `updateBox` of `ChartOverlay` (ChartOverlay.js line 429):
`prev.map(b => b.id === updatedBox.id ? updatedBox : b)`. -/
def updateBox (updatedBox : Box) (boxes : List Box) : List Box :=
  boxes.map fun b => if b.id = updatedBox.id then updatedBox else b

/-! ### SMCOverlay primitive generation (ChartOverlay.js lines 130-371)

We record, for each overlay `<div>` pushed to the `overlays` array, its
React `key` and the `top` value of its inline style (the price-derived
vertical position; `none` when the JavaScript computation yields
`NaN`).  The `us-open`/`us-close` vertical session lines and the
`structure-label` badge have constant positions. -/

/-- The SMC indicator toggles. -/
structure Indicators where
  pdhl : Bool
  liquidity : Bool
  fvg : Bool
  breakers : Bool
  swings : Bool
deriving DecidableEq

/-- A market-data snapshot as `SMCOverlay` destructures it; each field
may be missing (`undefined`). -/
structure PriceData where
  current : Option ℚ
  high24h : Option ℚ
  low24h : Option ℚ
  change24h : Option ℚ
deriving DecidableEq

/-- One overlay primitive: its React `key` and its style `top`. -/
structure OverlayPrim where
  key : String
  top : Option ℚ
deriving DecidableEq

/-- `SMCOverlay` (ChartOverlay.js lines 130-371) as the list of overlay
primitives it renders; `none` is the early `return null` taken when
`!priceData || !priceData.current`. -/
def SMCOverlay (indicators : Indicators) (chartWidth chartHeight : ℚ)
    (priceData : Option PriceData) : Option (List OverlayPrim) :=
  match priceData with
  | none => none
  | some pd =>
    if jsFalsy pd.current then none
    else
      let current := pd.current
      let high24h := pd.high24h
      let low24h := pd.low24h
      let change24h := pd.change24h
      let p2y := priceToY high24h low24h chartHeight
      let pdhlPrims : List OverlayPrim :=
        if indicators.pdhl then
          [⟨"pdh", p2y high24h⟩,
           ⟨"pdl", p2y low24h⟩,
           ⟨"us-open", some 0⟩,
           ⟨"us-close", some 0⟩]
        else []
      let liquidityPrims : List OverlayPrim :=
        if indicators.liquidity then
          let liqHighY := p2y (jmul high24h (some (1 + 5 / 1000)))
          let liqLowY := p2y (jmul low24h (some (1 - 5 / 1000)))
          let midY := p2y (jdiv (jadd high24h low24h) (some 2))
          [⟨"liq-high", jsMax (some 0) (jsub liqHighY (some 20))⟩,
           ⟨"liq-low", liqLowY⟩,
           ⟨"liq-mid", jsub midY (some 10)⟩]
        else []
      let fvgPrims : List OverlayPrim :=
        if indicators.fvg && jsGtNum (jsAbs change24h) 2 then
          let fvgMidPrice := jmul current (jsub (some 1) (jdiv change24h (some 200)))
          let fvgY := p2y fvgMidPrice
          let fvgHeight := jsMin (jmul (jsAbs change24h) (some 2)) (some 35)
          let fvg2Price := jmul current (jsub (some 1) (jdiv change24h (some 400)))
          let fvg2Y := p2y fvg2Price
          [⟨"fvg-1", jsub fvgY (jdiv fvgHeight (some 2))⟩,
           ⟨"fvg-2", jsub fvg2Y (jdiv fvgHeight (some 3))⟩]
        else []
      let breakerPrims : List OverlayPrim :=
        if indicators.breakers then
          let breakerPrice :=
            jmul current (some (1 + (if jsGtNum change24h 0 then -(3 / 100) else 3 / 100)))
          let breakerY := p2y breakerPrice
          [⟨"breaker", jsub breakerY (some 20)⟩]
        else []
      let swingPrims : List OverlayPrim :=
        if indicators.swings then
          let swingHighY := p2y (jmul high24h (some (1 - 2 / 1000)))
          let swingLowY := p2y (jmul low24h (some (1 + 2 / 1000)))
          let hlY := p2y (jmul low24h (some (1 + 2 / 100)))
          [⟨"swing-hh-1", jsub swingHighY (some 25)⟩,
           ⟨"swing-hh-2", jsub swingHighY (some 20)⟩,
           ⟨"swing-hl", hlY⟩,
           ⟨"swing-ll", swingLowY⟩,
           ⟨"structure-label", some 10⟩]
        else []
      some (pdhlPrims ++ liquidityPrims ++ fvgPrims ++ breakerPrims ++ swingPrims)

/-- The primitives of `SMCOverlay` whose geometry is derived from snapshot
prices (every key except the constant-position `us-open`, `us-close` and
`structure-label` decorations). -/
def priceDependentKeys : List String :=
  ["pdh", "pdl", "liq-high", "liq-low", "liq-mid", "fvg-1", "fvg-2",
   "breaker", "swing-hh-1", "swing-hh-2", "swing-hl", "swing-ll"]

/-! ### Helper lemmas -/

/-- `priceToY` on a degenerate (zero-width) range returns the midpoint. -/
lemma priceToY_degenerate (hl chartHeight : ℚ) (price : Option ℚ) :
    priceToY (some hl) (some hl) chartHeight price = some (chartHeight / 2) := by
  unfold priceToY
  rw [if_pos (by simp [jsub])]

/-- `priceToY` on a non-degenerate range, in closed form. -/
lemma priceToY_of_ne (h l chartHeight p : ℚ) (hne : h ≠ l) :
    priceToY (some h) (some l) chartHeight (some p)
      = some (chartHeight * (1 / 10) + (h - p) / (h - l) * (chartHeight * (8 / 10))) := by
  have hsub : h - l ≠ 0 := sub_ne_zero.mpr hne
  unfold priceToY
  rw [if_neg (by simp [jsub, sub_eq_zero, hne])]
  simp [jsub, jdiv, jadd, jmul, hsub]

/-- `rr` written out over the box fields. -/
lemma rr_def (b : Box) :
    rr b = if 0 < |max b.tpY b.slY - b.entryY|
      then |b.entryY - min b.tpY b.slY| / |max b.tpY b.slY - b.entryY| else 0 := rfl

/-- Mapping the `updateBox` replacement over a list in which no element
carries the updated id is the identity. -/
lemma map_update_id (u : Box) (l : List Box) (h : ∀ b ∈ l, b.id ≠ u.id) :
    l.map (fun b => if b.id = u.id then u else b) = l := by
  induction l with
  | nil => rfl
  | cons hd tl ih =>
    simp only [List.map_cons]
    rw [if_neg (h hd (List.mem_cons_self hd tl)),
      ih (fun b hb => h b (List.mem_cons_of_mem _ hb))]

/-! ### Claims -/

/-- C1: for entry=100, stop=98, target=104, accountSize=10000,
riskPercent=2, leverage=10, side=Long, the trade calculator returns
slPct=2, tpPct=4, riskRewardRatio=2, riskAmount=200 and
potentialProfit=400 (exact values before display formatting). -/
theorem c1_trade_calculator_example :
    ∃ m, calculations 100 98 104 10000 2 10 TradeSide.long = some m ∧
      m.slPercent = 2 ∧ m.tpPercent = 4 ∧ m.rrRatio = 2 ∧
      m.riskAmount = 200 ∧ m.potentialProfit = 400 := by
  refine ⟨_, rfl, ?_, ?_, ?_, ?_, ?_⟩ <;> norm_num

/-- C2: for nonzero entry with stop equal to entry, the calculator
returns the sentinel value `0` (the code's stand-in for an undefined
ratio, per the `slDistance > 0` / `slPercent > 0` / `entry > 0` guards)
for every ratio-dependent field — riskRewardRatio, positionSize
(notional), quantity, potentialProfit — and no field is `NaN` (every
division is guarded, so each field is a well-defined rational); and
whenever entry = 0 or stop = 0 the calculator returns the undefined
sentinel `null` without computing any metric. -/
theorem c2_entry_eq_stop_sentinel :
    (∀ (e tp account risk lev : ℚ) (side : TradeSide), e ≠ 0 →
      ∃ m, calculations e e tp account risk lev side = some m ∧
        m.rrRatio = 0 ∧ m.positionSize = 0 ∧ m.quantity = 0 ∧ m.potentialProfit = 0) ∧
    (∀ (e sl tp account risk lev : ℚ) (side : TradeSide), e = 0 ∨ sl = 0 →
      calculations e sl tp account risk lev side = none) := by
  constructor
  · intro e tp account risk lev side he
    unfold calculations
    rw [if_neg (by simpa using he)]
    refine ⟨_, rfl, ?_, ?_, ?_, ?_⟩ <;>
      simp [sub_self, abs_zero, zero_div, zero_mul, ite_self]
  · intro e sl tp account risk lev side h
    unfold calculations
    rw [if_pos h]

/-- Witness for C2 at entry = stop = 100. -/
theorem c2_entry_eq_stop_sentinel_witness :
    (∃ m, calculations 100 100 104 10000 2 10 TradeSide.long = some m ∧
      m.rrRatio = 0 ∧ m.positionSize = 0 ∧ m.quantity = 0 ∧ m.potentialProfit = 0) ∧
    calculations 0 98 104 10000 2 10 TradeSide.long = none :=
  ⟨c2_entry_eq_stop_sentinel.1 100 104 10000 2 10 TradeSide.long (by norm_num),
   c2_entry_eq_stop_sentinel.2 0 98 104 10000 2 10 TradeSide.long (Or.inl rfl)⟩

/-- C3: for valid parameters (leverage > 0, and nonzero entry/stop so the
calculator produces output), the approximate liquidation price equals
`entry * (1 - liqDistancePct/100)` for Long and
`entry * (1 + liqDistancePct/100)` for Short, with
`liqDistancePct = 100/leverage - 0.5` (maintenance margin 0.5%). -/
theorem c3_liquidation_price (entry sl tp account risk lev : ℚ) (side : TradeSide)
    (hlev : 0 < lev) (hentry : entry ≠ 0) (hsl : sl ≠ 0) :
    ∃ m, calculations entry sl tp account risk lev side = some m ∧
      m.liquidationPrice = liquidationPriceSpec entry lev side := by
  unfold calculations
  rw [if_neg (by simp [hentry, hsl])]
  refine ⟨_, rfl, ?_⟩
  have hne : (if lev = 0 then (1 : ℚ) else lev) = lev := if_neg (ne_of_gt hlev)
  cases side <;> simp [hne, liquidationPriceSpec]

/-- Witness for C3 at the C1 inputs. -/
theorem c3_liquidation_price_witness :
    ∃ m, calculations 100 98 104 10000 2 10 TradeSide.long = some m ∧
      m.liquidationPrice = liquidationPriceSpec 100 10 TradeSide.long :=
  c3_liquidation_price 100 98 104 10000 2 10 TradeSide.long
    (by norm_num) (by norm_num) (by norm_num)

/-- C4: whenever the price range is degenerate (high = low), `priceToY`
returns exactly the vertical midpoint `chartHeight / 2`, for every input
price (even a missing one) and every canvas height, never dividing by
zero. -/
theorem c4_degenerate_range_midpoint (h l chartHeight : ℚ) (price : Option ℚ)
    (heq : h = l) :
    priceToY (some h) (some l) chartHeight price = some (chartHeight / 2) := by
  subst heq
  exact priceToY_degenerate h chartHeight price

/-- Witness for C4 at high = low = 5, chartHeight = 500, price 7. -/
theorem c4_degenerate_range_midpoint_witness :
    priceToY (some 5) (some 5) 500 (some 7) = some (500 / 2) :=
  c4_degenerate_range_midpoint 5 5 500 (some 7) rfl

/-- C5: for a fixed range (low ≤ high) and a fixed nonnegative canvas
height, `priceToY` is monotonically non-increasing in price: p1 ≤ p2
maps p2 to a smaller or equal pixel Y. -/
theorem c5_priceToY_antitone (h l chartHeight p1 p2 : ℚ)
    (hrange : l ≤ h) (hH : 0 ≤ chartHeight) (hp : p1 ≤ p2) :
    ∃ y1 y2, priceToY (some h) (some l) chartHeight (some p1) = some y1 ∧
      priceToY (some h) (some l) chartHeight (some p2) = some y2 ∧ y2 ≤ y1 := by
  rcases eq_or_lt_of_le hrange with heq | hlt
  · subst heq
    exact ⟨_, _, priceToY_degenerate l chartHeight (some p1),
      priceToY_degenerate l chartHeight (some p2), le_refl _⟩
  · have hne : h ≠ l := ne_of_gt hlt
    refine ⟨_, _, priceToY_of_ne h l chartHeight p1 hne,
      priceToY_of_ne h l chartHeight p2 hne, ?_⟩
    have hpos : 0 < h - l := sub_pos.mpr hlt
    have hdiv : (h - p2) / (h - l) ≤ (h - p1) / (h - l) :=
      (div_le_div_iff_of_pos_right hpos).mpr (by linarith)
    have h8 : 0 ≤ chartHeight * (8 / 10) := by positivity
    exact add_le_add_left (mul_le_mul_of_nonneg_right hdiv h8) _

/-- Witness for C5 at range [90, 110], chartHeight 500, prices 95 ≤ 105. -/
theorem c5_priceToY_antitone_witness :
    ∃ y1 y2, priceToY (some 110) (some 90) 500 (some 95) = some y1 ∧
      priceToY (some 110) (some 90) 500 (some 105) = some y2 ∧ y2 ≤ y1 :=
  c5_priceToY_antitone 110 90 500 95 105 (by norm_num) (by norm_num) (by norm_num)

/-- C6 counterexample: a Move drag does NOT always leave the displayed
risk/reward ratio unchanged.  With entryY=30, tpY=10, slY=50 on a
500px-high chart, a Move by deltaY=-20 clamps the entry edge at 20 while
tpY and slY translate the full -20, changing the ratio from 1 to 3. -/
theorem c6_counterexample :
    rr (moveDrag ⟨1, 0, 120, 30, 10, 50⟩ ⟨1, 0, 120, 30, 10, 50⟩ 500 (-20))
      ≠ rr ⟨1, 0, 120, 30, 10, 50⟩ := by
  norm_num [rr_def, moveDrag]

/-- C6 (amended): a Move drag leaves the displayed risk/reward ratio
`|entryY - tpEdgeY| / |slEdgeY - entryY|` unchanged whenever the entry
clamp does not engage, i.e. when the translated entry stays inside
`[20, chartHeight - 20]`; a Move whose entry translation is clamped can
change the ratio (only such Moves and the ResizeTop/ResizeBottom drags
can). -/
theorem c6_rr_invariant_under_unclamped_move (b : Box) (chartHeight deltaY : ℚ)
    (h1 : 20 ≤ b.entryY + deltaY) (h2 : b.entryY + deltaY ≤ chartHeight - 20) :
    rr (moveDrag b b chartHeight deltaY) = rr b := by
  have htp : (moveDrag b b chartHeight deltaY).tpY = b.tpY + deltaY := rfl
  have hsl : (moveDrag b b chartHeight deltaY).slY = b.slY + deltaY := rfl
  have hen : (moveDrag b b chartHeight deltaY).entryY = b.entryY + deltaY := by
    show max 20 (min (b.entryY + deltaY) (chartHeight - 20)) = _
    rw [min_eq_left h2, max_eq_right h1]
  rw [rr_def, rr_def, htp, hsl, hen, min_add_add_right, max_add_add_right]
  have e1 : b.entryY + deltaY - (min b.tpY b.slY + deltaY)
      = b.entryY - min b.tpY b.slY := by ring
  have e2 : max b.tpY b.slY + deltaY - (b.entryY + deltaY)
      = max b.tpY b.slY - b.entryY := by ring
  rw [e1, e2]

/-- Witness for the amended C6: an unclamped Move preserves the ratio. -/
theorem c6_rr_invariant_under_unclamped_move_witness :
    rr (moveDrag ⟨1, 0, 120, 100, 50, 150⟩ ⟨1, 0, 120, 100, 50, 150⟩ 500 30)
      = rr ⟨1, 0, 120, 100, 50, 150⟩ :=
  c6_rr_invariant_under_unclamped_move ⟨1, 0, 120, 100, 50, 150⟩ 500 30
    (by norm_num) (by norm_num)

/-- C7 counterexample: a ResizeTop drag CAN bring tpY within 10px of
entryY.  With entryY=5 (a box created by a click near the top of the
canvas), a large upward drag hits the `Math.max(0, ...)` floor, landing
tpY at 0, only 5px from the entry edge. -/
theorem c7_counterexample :
    |(⟨1, 0, 120, 5, 40, 80⟩ : Box).entryY
      - (resizeTop ⟨1, 0, 120, 5, 40, 80⟩ ⟨1, 0, 120, 5, 40, 80⟩ (-100)).tpY| < 10 := by
  norm_num [resizeTop]

/-- C7 (amended): provided the box's entry edge sits at least 10px below
the canvas top (entryY ≥ 10 — true of every box whose entry was placed
or Move-clamped to y ≥ 20), a ResizeTop drag keeps tpY at least 10px
above entryY; a ResizeBottom drag unconditionally keeps slY at least
10px below entryY; neither drag moves the entry edge, so the bound holds
after every step of any drag sequence. -/
theorem c7_resize_min_separation (initialBox box : Box) (chartHeight deltaY : ℚ)
    (h : 10 ≤ box.entryY) :
    (resizeTop initialBox box deltaY).tpY ≤ box.entryY - 10 ∧
    box.entryY + 10 ≤ (resizeBottom initialBox box chartHeight deltaY).slY ∧
    (resizeTop initialBox box deltaY).entryY = box.entryY ∧
    (resizeBottom initialBox box chartHeight deltaY).entryY = box.entryY := by
  refine ⟨?_, le_max_left _ _, rfl, rfl⟩
  show max 0 (min (initialBox.tpY + deltaY) (box.entryY - 10)) ≤ box.entryY - 10
  exact max_le (by linarith) (min_le_right _ _)

/-- Witness for the amended C7 at a box with entryY = 100. -/
theorem c7_resize_min_separation_witness :
    (resizeTop ⟨1, 0, 120, 100, 50, 150⟩ ⟨1, 0, 120, 100, 50, 150⟩ (-500)).tpY ≤ 100 - 10 ∧
    (100 : ℚ) + 10 ≤ (resizeBottom ⟨1, 0, 120, 100, 50, 150⟩ ⟨1, 0, 120, 100, 50, 150⟩ 500 (-500)).slY ∧
    (resizeTop ⟨1, 0, 120, 100, 50, 150⟩ ⟨1, 0, 120, 100, 50, 150⟩ (-500)).entryY = 100 ∧
    (resizeBottom ⟨1, 0, 120, 100, 50, 150⟩ ⟨1, 0, 120, 100, 50, 150⟩ 500 (-500)).entryY = 100 :=
  c7_resize_min_separation ⟨1, 0, 120, 100, 50, 150⟩ ⟨1, 0, 120, 100, 50, 150⟩ 500
    (-500) (by norm_num)

/-- C8 counterexample: with `high24h` missing but `current` present, the
overlay builder does NOT skip price-dependent primitives — with the
`pdhl` toggle on it still emits the PDH/PDL lines, their vertical
positions `NaN` (embedded as `none`). -/
theorem c8_counterexample :
    SMCOverlay ⟨true, false, false, false, false⟩ 800 500
        (some ⟨some 100, none, some 90, some 1⟩)
      = some [⟨"pdh", none⟩, ⟨"pdl", none⟩, ⟨"us-open", some 0⟩, ⟨"us-close", some 0⟩] ∧
    "pdh" ∈ priceDependentKeys := by
  exact ⟨by decide, by simp [priceDependentKeys]⟩

/-- C8 (amended): the overlay builder skips the whole render pass (returns
null) exactly when the snapshot is absent or its `current` field is
missing or zero; a snapshot missing only `high24h`/`low24h` is not
skipped — price-dependent primitives are still generated, with
non-finite positions. -/
theorem c8_skip_only_on_falsy_current (indicators : Indicators)
    (chartWidth chartHeight : ℚ) (pd : PriceData)
    (h : pd.current = none ∨ pd.current = some 0) :
    SMCOverlay indicators chartWidth chartHeight (some pd) = none ∧
    SMCOverlay indicators chartWidth chartHeight none = none := by
  refine ⟨?_, rfl⟩
  have hf : jsFalsy pd.current = true := by
    rcases h with h | h <;> simp [h, jsFalsy]
  simp [SMCOverlay, hf]

/-- Witness for the amended C8: a snapshot with `current` missing. -/
theorem c8_skip_only_on_falsy_current_witness :
    SMCOverlay ⟨true, true, true, true, true⟩ 800 500
        (some ⟨none, some 110, some 90, some 3⟩) = none ∧
    SMCOverlay ⟨true, true, true, true, true⟩ 800 500 none = none :=
  c8_skip_only_on_falsy_current ⟨true, true, true, true, true⟩ 800 500
    ⟨none, some 110, some 90, some 3⟩ (Or.inl rfl)

/-- C9: a drawing-mode click whose coordinates fall inside the bounding
rectangle of some existing box (horizontally within `[x, x + width]`,
vertically within `[min(tpY, slY), max(tpY, slY)]`) creates no box: the
collection is returned unchanged. -/
theorem c9_click_inside_box_no_create (boxes : List Box) (clickX clickY : ℚ)
    (newId : ℤ) (b : Box) (hmem : b ∈ boxes)
    (h1 : min b.tpY b.slY ≤ clickY) (h2 : clickY ≤ max b.tpY b.slY)
    (h3 : b.x ≤ clickX) (h4 : clickX ≤ b.x + b.width) :
    handleClick true boxes clickX clickY newId = boxes := by
  have hhit : clickedOnBox boxes clickX clickY = true := by
    unfold clickedOnBox
    rw [List.any_eq_true]
    exact ⟨b, hmem, by simp [h1, h2, h3, h4]⟩
  unfold handleClick
  simp [hhit]

/-- Witness for C9: a click at (50, 100) inside the box spanning
x ∈ [0, 120], y ∈ [60, 140]. -/
theorem c9_click_inside_box_no_create_witness :
    handleClick true [⟨1, 0, 120, 100, 60, 140⟩] 50 100 2 = [⟨1, 0, 120, 100, 60, 140⟩] :=
  c9_click_inside_box_no_create [⟨1, 0, 120, 100, 60, 140⟩] 50 100 2
    ⟨1, 0, 120, 100, 60, 140⟩ (List.mem_singleton.mpr rfl)
    (by norm_num) (by norm_num) (by norm_num) (by norm_num)

/-- C10: `updateBox` preserves the length and order of the collection;
at every index, a box whose id differs from the update's id is kept with
all its fields unchanged while a box carrying the update's id is
replaced by the update; and if no box carries the id the collection is
unchanged. -/
theorem c10_updateBox_frame (u : Box) (boxes : List Box) :
    (updateBox u boxes).length = boxes.length ∧
    (∀ (i : ℕ) (b : Box), boxes[i]? = some b →
      (b.id ≠ u.id → (updateBox u boxes)[i]? = some b) ∧
      (b.id = u.id → (updateBox u boxes)[i]? = some u)) ∧
    ((∀ b ∈ boxes, b.id ≠ u.id) → updateBox u boxes = boxes) := by
  refine ⟨List.length_map _ _, ?_, ?_⟩
  · intro i b hb
    have hmap : (updateBox u boxes)[i]?
        = (boxes[i]?).map fun x => if x.id = u.id then u else x :=
      List.getElem?_map _ _ _
    rw [hmap, hb]
    exact ⟨fun hne => by simp [hne], fun he => by simp [he]⟩
  · intro hall
    exact map_update_id u boxes hall

/-- Witness for C10: updating id 2 in a two-box collection keeps box 1
untouched, replaces box 2, and a miss leaves the collection unchanged. -/
theorem c10_updateBox_frame_witness :
    (updateBox ⟨2, 50, 120, 60, 40, 90⟩ [⟨1, 0, 120, 30, 10, 50⟩, ⟨2, 0, 120, 30, 10, 50⟩])[0]?
      = some ⟨1, 0, 120, 30, 10, 50⟩ ∧
    (updateBox ⟨2, 50, 120, 60, 40, 90⟩ [⟨1, 0, 120, 30, 10, 50⟩, ⟨2, 0, 120, 30, 10, 50⟩])[1]?
      = some ⟨2, 50, 120, 60, 40, 90⟩ ∧
    updateBox ⟨3, 0, 120, 30, 10, 50⟩ [⟨1, 0, 120, 30, 10, 50⟩] = [⟨1, 0, 120, 30, 10, 50⟩] :=
  ⟨((c10_updateBox_frame ⟨2, 50, 120, 60, 40, 90⟩
      [⟨1, 0, 120, 30, 10, 50⟩, ⟨2, 0, 120, 30, 10, 50⟩]).2.1 0
      ⟨1, 0, 120, 30, 10, 50⟩ rfl).1 (by decide),
   ((c10_updateBox_frame ⟨2, 50, 120, 60, 40, 90⟩
      [⟨1, 0, 120, 30, 10, 50⟩, ⟨2, 0, 120, 30, 10, 50⟩]).2.1 1
      ⟨2, 0, 120, 30, 10, 50⟩ rfl).2 rfl,
   (c10_updateBox_frame ⟨3, 0, 120, 30, 10, 50⟩ [⟨1, 0, 120, 30, 10, 50⟩]).2.2
     (by intro b hb; rw [List.mem_singleton.mp hb]; decide)⟩

end TraderGenie
